import Mathlib

/-!
Verification development for the Grainy film-grain texture generator.

The definitions below are a shallow embedding of the grain synthesis code
(`src/components/GrainCanvas.tsx`, `src/types.ts`, and the recipe service).
JavaScript 32-bit integer operations are modelled on `Nat` with explicit
reduction modulo `2^32`; JavaScript floating-point values are modelled as
exact rationals; the transcendental functions `Math.sqrt`, `Math.log`,
`Math.cos` and the constant `Math.PI` are abstracted as parameters, since
only their deterministic-function character matters to the claims.
-/

namespace Grainy

/-- Reduction modulo `2^32`, the effect of JavaScript `ToUint32`/`ToInt32`
on the bit pattern of an integer-valued number. -/
def toUint32 (n : Nat) : Nat := n % 4294967296

/-- The Mulberry32 additive constant `0x6D2B79F5` from `createRandom`. -/
def MULBERRY_INC : Nat := 0x6d2b79f5

/-- The two xorshift-multiply mixing rounds of `createRandom`
(`GrainCanvas.tsx` lines 14-17), acting on the already-incremented state.
`Math.imul` is multiplication mod `2^32`; the signed/unsigned distinction of
JS bitwise operators is irrelevant once values are tracked as residues. -/
def mulberryMix (t : Nat) : Nat :=
  let t1 := toUint32 ((t ^^^ (t >>> 15)) * (t ||| 1))
  let t2 := t1 ^^^ toUint32 (t1 + toUint32 ((t1 ^^^ (t1 >>> 7)) * (t1 ||| 61)))
  t2 ^^^ (t2 >>> 14)

/-- Initial PRNG state from an integer seed: the closure captures `s = seed`;
all later uses go through 32-bit coercions, so the residue mod `2^32` is the
effective state. -/
def mulberryInit (seed : Int) : Nat := (seed % 4294967296).toNat

/-- One call of the closure returned by `createRandom`: advance the state by
the additive constant, mix, and normalise the 32-bit result by `2^32`. -/
def mulberryNext (s : Nat) : ℚ × Nat :=
  let s2 := toUint32 (s + MULBERRY_INC)
  (((mulberryMix s2 : ℚ) / 4294967296), s2)

/-- The value/state pair produced by the `k`-th call (0-indexed) of the
closure `createRandom(seed)`. -/
def prngIter (seed : Int) : Nat → ℚ × Nat
  | 0 => mulberryNext (mulberryInit seed)
  | k + 1 => mulberryNext (prngIter seed k).2

/-- The value returned by the `k`-th call of `createRandom(seed)`. -/
def prngValue (seed : Int) (k : Nat) : ℚ := (prngIter seed k).1

/-- The PRNG draw sequence of one render, viewed as a stream. -/
def seedStream (seed : Int) : Nat → ℚ := prngValue seed

/-- The four texture families of `GrainTexture` (`src/types.ts`). -/
inductive GrainTexture where
  | UNIFORM
  | GAUSSIAN
  | SPECKLE
  | FILM
deriving DecidableEq, Repr

/-- The platform math functions used by the GAUSSIAN branch, abstracted as
deterministic functions (`Math.sqrt`, `Math.log`, `Math.cos`, `Math.PI`). -/
structure JsMath where
  sqrtQ : ℚ → ℚ
  logQ : ℚ → ℚ
  cosQ : ℚ → ℚ
  piQ : ℚ

/-- Per-cell noise sample from the `switch (texture)` block of the render
loop (`GrainCanvas.tsx` lines 106-123).  `g` is the PRNG draw stream and `p`
the index of the next unconsumed draw; the result pairs the sampled noise
with the next free draw index. -/
def sampleNoise (M : JsMath) (tex : GrainTexture) (intensity : ℚ)
    (g : Nat → ℚ) (p : Nat) : ℚ × Nat :=
  match tex with
  | .GAUSSIAN =>
    let u := 1 - g p
    let v := 1 - g (p + 1)
    ((M.sqrtQ (-2 * M.logQ u) * M.cosQ (2 * M.piQ * v) + 3) / 6, p + 2)
  | .SPECKLE =>
    if g p > 1 - intensity * (4 / 5) then (g (p + 1), p + 2) else (1 / 2, p + 1)
  | .FILM => ((g p + g (p + 1) + g (p + 2)) / 3, p + 3)
  | .UNIFORM => (g p, p + 1)

/-- The noise model as worded by the spec (section 4.2): UNIFORM is one
draw; GAUSSIAN is Box-Muller on `u = 1 - rng()`, `v = 1 - rng()` giving
`sqrt(-2*ln u) * cos(2*pi*v)`, rescaled as `(raw + 3)/6` with no further
clamping; SPECKLE draws `r1` and yields a second draw if
`r1 > 1 - intensity*0.8`, else exactly `0.5`; FILM is the mean of three
draws. -/
def specNoiseModel (M : JsMath) (tex : GrainTexture) (intensity : ℚ)
    (g : Nat → ℚ) (p : Nat) : ℚ × Nat :=
  match tex with
  | .UNIFORM => (g p, p + 1)
  | .GAUSSIAN =>
    let u := 1 - g p
    let v := 1 - g (p + 1)
    let raw := M.sqrtQ (-2 * M.logQ u) * M.cosQ (2 * M.piQ * v)
    ((raw + 3) / 6, p + 2)
  | .SPECKLE =>
    let r1 := g p
    if r1 > 1 - intensity * (4 / 5) then (g (p + 1), p + 2) else (1 / 2, p + 1)
  | .FILM => ((g p + g (p + 1) + g (p + 2)) / 3, p + 3)

/-- The provisional alpha fraction: the sampled noise multiplied by
`intensity` (`GrainCanvas.tsx` line 125). -/
def provisionalAlpha (M : JsMath) (tex : GrainTexture) (intensity : ℚ)
    (g : Nat → ℚ) (p : Nat) : ℚ :=
  (sampleNoise M tex intensity g p).1 * intensity

/-- The two saturating branches `if (mask < 0) mask = 0; if (mask > 1)
mask = 1;` (`GrainCanvas.tsx` lines 144-145). -/
def maskClamp (m : ℚ) : ℚ := if m < 0 then 0 else if m > 1 then 1 else m

/-- The per-cell masking multiplier `mask * 0.8 + 0.2` built from
`threshold = randomness * 0.8` and the soft-thresholded, clamped mask
(`GrainCanvas.tsx` lines 140-150). -/
def maskMultiplier (randomness mapVal : ℚ) : ℚ :=
  let threshold := randomness * (4 / 5)
  maskClamp ((mapVal - threshold) / (1 - threshold)) * (4 / 5) + 1 / 5

/-- The settings record consumed by the render
(`src/types.ts` plus the `seed`/`randomness` fields destructured by
`GrainCanvas.tsx` line 32).  Numeric fields are exact rationals, the seed is
an integer, colors are hex strings. -/
structure GrainSettings where
  width : ℚ
  height : ℚ
  ppi : ℚ
  intensity : ℚ
  scale : ℚ
  roughness : ℚ
  opacity : ℚ
  randomness : ℚ
  seed : Int
  bgColor : String
  grainColor : String
  texture : GrainTexture
  monochrome : Bool

/-- `APP_LIMITS.MAX_DIMENSION` (`src/types.ts`). -/
def MAX_DIMENSION : ℚ := 5000

/-- `Math.min(dimension, APP_LIMITS.MAX_DIMENSION)`
(`GrainCanvas.tsx` lines 34-35). -/
def finalDim (w : ℚ) : ℚ := min w MAX_DIMENSION

/-- Noise-space resolution `Math.ceil(finalDim / Math.max(1, scale))`
(`GrainCanvas.tsx` lines 48-50). -/
def noiseDim (fw scale : ℚ) : Int := ⌈fw / max 1 scale⌉

/-- Value of one hex digit, as recognised by `parseInt(_, 16)`. -/
def hexVal (c : Char) : Option Nat :=
  if '0' ≤ c ∧ c ≤ '9' then some (c.toNat - '0'.toNat)
  else if 'a' ≤ c ∧ c ≤ 'f' then some (c.toNat - 'a'.toNat + 10)
  else if 'A' ≤ c ∧ c ≤ 'F' then some (c.toNat - 'A'.toNat + 10)
  else none

/-- Accumulate the longest leading run of hex digits. -/
def hexAcc (acc : Nat) : List Char → Nat
  | [] => acc
  | c :: rest =>
    match hexVal c with
    | some d => hexAcc (acc * 16 + d) rest
    | none => acc

/-- Longest hex-digit run at the head of the character list; `none` when it
is empty (the `NaN` outcome of `parseInt`). -/
def hexLead : List Char → Option Nat
  | [] => none
  | c :: rest =>
    match hexVal c with
    | some d => some (hexAcc d rest)
    | none => none

/-- Drop one leading `0x`/`0X` marker, as `parseInt` with radix 16 does. -/
def dropHexMark : List Char → List Char
  | '0' :: 'x' :: rest => rest
  | '0' :: 'X' :: rest => rest
  | cs => cs

/-- JavaScript `parseInt(s, 16)`: skip leading whitespace, optional sign,
optional `0x` marker, then the longest hex-digit run; `none` models `NaN`. -/
def parseIntHex (s : String) : Option Int :=
  match s.toList.dropWhile Char.isWhitespace with
  | '-' :: rest => (hexLead (dropHexMark rest)).map (fun n => -(n : Int))
  | '+' :: rest => (hexLead (dropHexMark rest)).map (fun n => (n : Int))
  | cs => (hexLead (dropHexMark cs)).map (fun n => (n : Int))

/-- JavaScript `String.prototype.slice(a, b)` for `a ≤ b` on ASCII input. -/
def jsSlice (s : String) (a b : Nat) : String :=
  String.mk ((s.toList.drop a).take (b - a))

/-- `parseInt(color.slice(a, b), 16) || 0`: a failed parse (`NaN`) defaults
the channel to 0; a parsed 0 is also falsy and stays 0
(`GrainCanvas.tsx` lines 99-101). -/
def channelOf (color : String) (a b : Nat) : Int :=
  match parseIntHex (jsSlice color a b) with
  | none => 0
  | some v => v

/-- Modelled from the spec: the background fill `ctx.fillStyle = bgColor`
runs through the platform canvas color parser, which is not repository
code; per the spec's error-handling design, channel parse failures default
to 0 (black), so an invalid color string yields the context's default
black `(0,0,0)` while a well-formed `#RRGGBB` string yields its channels. -/
def bgRGB (c : String) : Nat × Nat × Nat :=
  match c.toList with
  | ['#', a, b, d, e, f, g] =>
    match hexVal a, hexVal b, hexVal d, hexVal e, hexVal f, hexVal g with
    | some x1, some x2, some x3, some x4, some x5, some x6 =>
      (x1 * 16 + x2, x3 * 16 + x4, x5 * 16 + x6)
    | _, _, _, _, _, _ => (0, 0, 0)
  | _ => (0, 0, 0)

/-- Round half to even, the rounding mode of `Uint8ClampedArray` stores. -/
def roundHalfEven (q : ℚ) : Int :=
  let f := ⌊q⌋
  let r := q - (f : ℚ)
  if r < 1 / 2 then f
  else if (1 / 2 : ℚ) < r then f + 1
  else if f % 2 = 0 then f else f + 1

/-- A `Uint8ClampedArray` element store: clamp to `[0, 255]`, round half to
even. -/
def toByte (q : ℚ) : Nat :=
  if q ≤ 0 then 0
  else if 255 ≤ q then 255
  else (roundHalfEven q).toNat

/-- The low-resolution clump grid fill (`GrainCanvas.tsx` lines 67-73): each
cell stores `rng() * 255` as a clamped byte (the same gray value goes to R,
G and B; only the gray value is tracked here).  `p` is the index of the next
PRNG draw, `n` the number of cells still to fill. -/
def clutterFill (g : Nat → ℚ) : Nat → Nat → List Nat
  | _, 0 => []
  | p, n + 1 => toByte (g p * 255) :: clutterFill g (p + 1) n

/-- The platform's smoothing upscale (`drawImage` with
`imageSmoothingEnabled = true`), abstracted as a deterministic function
from the low-res gray grid and the grid/noise dimensions to the per-cell
gray bytes at noise resolution. -/
def SmoothFn : Type :=
  List Nat → Nat → Nat → Nat → Nat → List Nat

/-- One pass of the per-cell render loop (`GrainCanvas.tsx` lines 103-164),
emitting 4 RGBA bytes per noise cell.  `mask` carries the upscaled clump
bytes together with the `randomness` value when the clump branch ran
(`clutterData[i] / 255` is the gray byte of the same cell); `idx` is the
cell index, `p` the next PRNG draw index, and the last argument the number
of cells still to emit. -/
def cellBytes (M : JsMath) (tex : GrainTexture) (intensity : ℚ)
    (mono : Bool) (gR gG gB : Int) (mask : Option (List Nat × ℚ))
    (g : Nat → ℚ) : Nat → Nat → Nat → List Nat
  | _, _, 0 => []
  | idx, p, n + 1 =>
    let s0 := sampleNoise M tex intensity g p
    let p1 := s0.2
    let effect0 := s0.1 * intensity
    let effect :=
      match mask with
      | some md => effect0 * maskMultiplier md.2 ((md.1.getD idx 0 : ℚ) / 255)
      | none => effect0
    if mono then
      toByte (gR : ℚ) :: toByte (gG : ℚ) :: toByte (gB : ℚ) ::
        toByte (effect * 255) ::
        cellBytes M tex intensity mono gR gG gB mask g (idx + 1) p1 n
    else
      toByte (g p1 * 255) :: toByte (g (p1 + 1) * 255) ::
        toByte (g (p1 + 2) * 255) :: toByte (effect * 255) ::
        cellBytes M tex intensity mono gR gG gB mask g (idx + 1) (p1 + 3) n

/-- The RGBA byte contents of the noise-resolution `ImageData` produced by
one render (`GrainCanvas.tsx` lines 42-164): clamp dimensions, derive the
noise resolution, seed the PRNG, optionally build the clump mask from the
leading PRNG draws (`randomness > 0.05`), then run the per-cell loop. -/
def renderNoise (M : JsMath) (smooth : SmoothFn) (s : GrainSettings) : List Nat :=
  let nW := (noiseDim (finalDim s.width) s.scale).toNat
  let nH := (noiseDim (finalDim s.height) s.scale).toNat
  let g := seedStream s.seed
  let gR := channelOf s.grainColor 1 3
  let gG := channelOf s.grainColor 3 5
  let gB := channelOf s.grainColor 5 7
  if s.randomness > 1 / 20 then
    let cw := (⌈(nW : ℚ) / 50⌉ + 2).toNat
    let ch := (⌈(nH : ℚ) / 50⌉ + 2).toNat
    cellBytes M s.texture s.intensity s.monochrome gR gG gB
      (some (smooth (clutterFill g 0 (cw * ch)) cw ch nW nH, s.randomness))
      g 0 (cw * ch) (nW * nH)
  else
    cellBytes M s.texture s.intensity s.monochrome gR gG gB none g 0 0 (nW * nH)

/-- The downstream composition of the render (background fill, nearest
neighbour upscale of the noise buffer, alpha blend at `opacity`, optional
blur at `roughness * 10`), abstracted as a deterministic platform function
of exactly those inputs. -/
def ComposeFn : Type :=
  ℚ → ℚ → Nat × Nat × Nat → List Nat → ℚ → ℚ → List Nat

/-- The final output pixel buffer of one render pass. -/
def renderOutput (M : JsMath) (smooth : SmoothFn) (compose : ComposeFn)
    (s : GrainSettings) : List Nat :=
  compose (finalDim s.width) (finalDim s.height) (bgRGB s.bgColor)
    (renderNoise M smooth s) s.opacity s.roughness

/-- The number of noise cells of one render. -/
def cellCount (s : GrainSettings) : Nat :=
  (noiseDim (finalDim s.width) s.scale).toNat *
    (noiseDim (finalDim s.height) s.scale).toNat

/-- Partial settings fragment carried by a recipe
(`Partial<GrainSettings>` in `src/types.ts`, restricted to the fields the
recipe prompt requests). -/
structure PartialGrainSettings where
  intensity : Option ℚ
  scale : Option ℚ
  roughness : Option ℚ
  opacity : Option ℚ
  randomness : Option ℚ
  seed : Option Int
  bgColor : Option String
  grainColor : Option String
  texture : Option GrainTexture
  monochrome : Option Bool
deriving DecidableEq, Repr

/-- `AIRecipe` (`src/types.ts`). -/
structure AIRecipe where
  name : String
  description : String
  settings : PartialGrainSettings
deriving DecidableEq, Repr

/-- `fetchGrainRecipes` (services/geminiService.ts): the
`ai.models.generateContent` call is awaited *outside* the `try` block, so a
failure of that call propagates to the caller; only `JSON.parse` runs
inside the `try`, whose `catch` returns `[]`.  The network call is modelled
as an `Except` input (error or response text) and `JSON.parse` as a parse
oracle returning `none` on failure. -/
def fetchGrainRecipes (generate : Except String String)
    (parseJson : String → Option (List AIRecipe)) : Except String (List AIRecipe) :=
  match generate with
  | .error e => .error e
  | .ok text =>
    match parseJson text with
    | some recipes => .ok recipes
    | none => .ok []

/-- Dummy instantiation of the abstract platform math functions, used to
evaluate the render on texture families that do not call them. -/
def trivialMath : JsMath := ⟨fun _ => 0, fun _ => 0, fun _ => 0, 0⟩

/-- Dummy instantiation of the abstract smoothing upscale, used to evaluate
renders whose clump branch is skipped. -/
def trivialSmooth : SmoothFn := fun _ _ _ _ _ => []

/-- Dummy instantiation of the abstract downstream composition: it returns
the noise buffer itself, so buffer equalities are visible in the output. -/
def trivialCompose : ComposeFn := fun _ _ _ noise _ _ => noise

/-- A 2-cell UNIFORM settings record (width 2, height 1, scale 1,
intensity 1, randomness 0, seed 1) whose monochrome flag is the argument;
used to evaluate the render concretely. -/
def toggleSettings (mono : Bool) : GrainSettings :=
  ⟨2, 1, 72, 1, 1, 0, 1, 0, 1, "#FFFFFF", "#000000", GrainTexture.UNIFORM, mono⟩

theorem toUint32_lt (n : Nat) : toUint32 n < 4294967296 :=
  Nat.mod_lt _ (by norm_num)

theorem mulberryMix_lt (t : Nat) : mulberryMix t < 4294967296 := by
  have h32 : (4294967296 : Nat) = 2 ^ 32 := by norm_num
  unfold mulberryMix
  have h1 : toUint32 ((t ^^^ (t >>> 15)) * (t ||| 1)) < 4294967296 := toUint32_lt _
  have h2 : toUint32 ((toUint32 ((t ^^^ (t >>> 15)) * (t ||| 1))) +
      toUint32 (((toUint32 ((t ^^^ (t >>> 15)) * (t ||| 1))) ^^^
        ((toUint32 ((t ^^^ (t >>> 15)) * (t ||| 1))) >>> 7)) *
        ((toUint32 ((t ^^^ (t >>> 15)) * (t ||| 1))) ||| 61))) < 4294967296 :=
    toUint32_lt _
  rw [h32] at h1 h2 ⊢
  have hx : (toUint32 ((t ^^^ (t >>> 15)) * (t ||| 1))) ^^^
      (toUint32 ((toUint32 ((t ^^^ (t >>> 15)) * (t ||| 1))) +
        toUint32 (((toUint32 ((t ^^^ (t >>> 15)) * (t ||| 1))) ^^^
          ((toUint32 ((t ^^^ (t >>> 15)) * (t ||| 1))) >>> 7)) *
          ((toUint32 ((t ^^^ (t >>> 15)) * (t ||| 1))) ||| 61)))) < 2 ^ 32 :=
    Nat.xor_lt_two_pow h1 h2
  refine Nat.xor_lt_two_pow hx (lt_of_le_of_lt ?_ hx)
  rw [Nat.shiftRight_eq_div_pow]
  exact Nat.div_le_self _ _

/-- The state after the `k`-th call has the closed form
`(init + (k+1) * constant) mod 2^32`. -/
theorem prngIter_state (seed : Int) (k : Nat) :
    (prngIter seed k).2 = toUint32 (mulberryInit seed + (k + 1) * MULBERRY_INC) := by
  induction k with
  | zero => simp [prngIter, mulberryNext]
  | succ n ih =>
    show (mulberryNext (prngIter seed n).2).2 = _
    rw [ih]
    unfold mulberryNext toUint32
    simp only []
    rw [Nat.mod_add_mod]
    ring_nf

theorem prngValue_closed_form (seed : Int) (k : Nat) :
    prngValue seed k =
      (mulberryMix (toUint32 (mulberryInit seed + (k + 1) * MULBERRY_INC)) : ℚ) / 4294967296 := by
  cases k with
  | zero => simp [prngValue, prngIter, mulberryNext, toUint32]
  | succ n =>
    show (mulberryNext (prngIter seed n).2).1 = _
    rw [prngIter_state seed n]
    unfold mulberryNext toUint32
    simp only []
    rw [Nat.mod_add_mod]
    ring_nf

theorem prngValue_nonneg (seed : Int) (k : Nat) : 0 ≤ prngValue seed k := by
  rw [prngValue_closed_form]
  positivity

theorem prngValue_lt_one (seed : Int) (k : Nat) : prngValue seed k < 1 := by
  rw [prngValue_closed_form]
  rw [div_lt_one (by norm_num)]
  exact_mod_cast mulberryMix_lt _

theorem maskClamp_nonneg (m : ℚ) : 0 ≤ maskClamp m := by
  unfold maskClamp
  split_ifs with h1 h2 <;> linarith [h1]

theorem maskClamp_le_one (m : ℚ) : maskClamp m ≤ 1 := by
  unfold maskClamp
  split_ifs with h1 h2 <;> linarith

/-- Every pass of the per-cell loop emits exactly 4 bytes per cell, so the
buffer always reaches its full length. -/
theorem cellBytes_length (M : JsMath) (tex : GrainTexture) (intensity : ℚ)
    (mono : Bool) (gR gG gB : Int) (mask : Option (List Nat × ℚ))
    (g : Nat → ℚ) : ∀ (n idx p : Nat),
    (cellBytes M tex intensity mono gR gG gB mask g idx p n).length = 4 * n := by
  intro n
  induction n with
  | zero => intro idx p; rfl
  | succ m ih =>
    intro idx p
    cases mono <;>
      simp [cellBytes, ih] <;> omega

theorem renderNoise_length (M : JsMath) (smooth : SmoothFn)
    (s : GrainSettings) : (renderNoise M smooth s).length = 4 * cellCount s := by
  unfold renderNoise cellCount
  split_ifs <;> exact cellBytes_length _ _ _ _ _ _ _ _ _ _ _ _

/-- A `Uint8ClampedArray` store that rounds up: when `q` lies strictly
between `m + 1/2` and `m + 1` (and below 255) the stored byte is `m + 1`. -/
theorem toByte_up (q : ℚ) (m : Nat) (h1 : (m : ℚ) + 1 / 2 < q)
    (h2 : q < (m : ℚ) + 1) (h3 : q < 255) : toByte q = m + 1 := by
  have hm0 : (0 : ℚ) ≤ (m : ℚ) := by positivity
  have hq0 : ¬ q ≤ 0 := by push_neg; linarith
  have hq255 : ¬ 255 ≤ q := by push_neg; exact h3
  have hfl : ⌊q⌋ = ((m : Nat) : Int) := by
    rw [Int.floor_eq_iff]
    constructor <;> push_cast <;> linarith
  unfold toByte roundHalfEven
  rw [if_neg hq0, if_neg hq255]
  simp only [hfl]
  rw [if_neg (by push_cast; linarith), if_pos (by push_cast; linarith)]
  omega

/-- The render of `toggleSettings` reduces to the bare 2-cell loop: the
clump branch is skipped (`randomness = 0`), the noise resolution is `2 × 1`,
and every grain-color channel of `#000000` parses to 0. -/
theorem renderNoise_toggle (mono : Bool) :
    renderNoise trivialMath trivialSmooth (toggleSettings mono) =
      cellBytes trivialMath GrainTexture.UNIFORM 1 mono 0 0 0 none
        (seedStream 1) 0 0 2 := by
  have h13 : channelOf "#000000" 1 3 = 0 := by decide
  have h35 : channelOf "#000000" 3 5 = 0 := by decide
  have h57 : channelOf "#000000" 5 7 = 0 := by decide
  have hc2 : noiseDim (finalDim 2) 1 = 2 := by
    norm_num [noiseDim, finalDim, MAX_DIMENSION, min_def, max_def]
  have hc1 : noiseDim (finalDim 1) 1 = 1 := by
    norm_num [noiseDim, finalDim, MAX_DIMENSION, min_def, max_def]
  have hn2 : (noiseDim (finalDim 2) 1).toNat = 2 := by rw [hc2]; rfl
  have hn1 : (noiseDim (finalDim 1) 1).toNat = 1 := by rw [hc1]; rfl
  unfold renderNoise toggleSettings
  simp only []
  rw [if_neg (by norm_num)]
  rw [h13, h35, h57, hn2, hn1]

/-- The draw of call index `k` for seed 1, from the closed form. -/
theorem seedStream_one_val (k out : Nat)
    (h : mulberryMix (toUint32 (mulberryInit 1 + (k + 1) * MULBERRY_INC)) = out) :
    seedStream 1 k = (out : ℚ) / 4294967296 := by
  rw [seedStream, prngValue_closed_form, h]

/-- C2: the seeded PRNG `createRandom` is Mulberry32: 32-bit state advanced
by the additive constant `0x6D2B79F5` on every call, two xorshift-multiply
mixing rounds (`mulberryMix`), and normalisation of the 32-bit result by
`2^32`.  Hence the `k`-th returned value is the bit-exact closed-form
function of the seed and the call index shown here, and every returned
value lies in `[0, 1)`. -/
theorem createRandom_is_mulberry32 (seed : Int) (k : Nat) :
    prngValue seed k =
      (mulberryMix (toUint32 (mulberryInit seed + (k + 1) * MULBERRY_INC)) : ℚ) / 4294967296 ∧
    (prngIter seed k).2 = toUint32 (mulberryInit seed + (k + 1) * MULBERRY_INC) ∧
    0 ≤ prngValue seed k ∧ prngValue seed k < 1 :=
  ⟨prngValue_closed_form seed k, prngIter_state seed k,
   prngValue_nonneg seed k, prngValue_lt_one seed k⟩

/-- C3: for every texture family the per-cell noise sample of the code
equals the spec's formula applied to the next PRNG draws (same value and
same number of draws consumed), and the provisional alpha fraction is that
sample multiplied by `intensity`. -/
theorem noise_model_matches_spec (M : JsMath) (tex : GrainTexture)
    (intensity : ℚ) (g : Nat → ℚ) (p : Nat) :
    sampleNoise M tex intensity g p = specNoiseModel M tex intensity g p ∧
    provisionalAlpha M tex intensity g p =
      (specNoiseModel M tex intensity g p).1 * intensity := by
  cases tex <;> exact ⟨rfl, rfl⟩

/-- C4: for every `randomness` in `[0,1]` and mask sample `mapVal` in
`[0,1]`, the masking multiplier lies in `[0.2, 1]`; consequently a nonzero
provisional effect is never driven to exactly 0 by masking alone. -/
theorem mask_multiplier_floor (randomness mapVal : ℚ)
    (hr0 : 0 ≤ randomness) (hr1 : randomness ≤ 1)
    (hv0 : 0 ≤ mapVal) (hv1 : mapVal ≤ 1) :
    1 / 5 ≤ maskMultiplier randomness mapVal ∧
    maskMultiplier randomness mapVal ≤ 1 ∧
    ∀ effect : ℚ, effect ≠ 0 → effect * maskMultiplier randomness mapVal ≠ 0 := by
  have h0 := maskClamp_nonneg ((mapVal - randomness * (4 / 5)) / (1 - randomness * (4 / 5)))
  have h1 := maskClamp_le_one ((mapVal - randomness * (4 / 5)) / (1 - randomness * (4 / 5)))
  unfold maskMultiplier
  refine ⟨by linarith, by linarith, ?_⟩
  intro effect he
  exact mul_ne_zero he (by linarith)

/-- Witness for C4 at `randomness = 1/2`, `mapVal = 1/2`. -/
theorem mask_multiplier_floor_witness :
    1 / 5 ≤ maskMultiplier (1 / 2) (1 / 2) ∧
    maskMultiplier (1 / 2) (1 / 2) ≤ 1 ∧
    ∀ effect : ℚ, effect ≠ 0 → effect * maskMultiplier (1 / 2) (1 / 2) ≠ 0 :=
  mask_multiplier_floor (1 / 2) (1 / 2) (by norm_num) (by norm_num)
    (by norm_num) (by norm_num)

/-- C7 counterexample: at `randomness = 2` (threshold `= 1.6 ≥ 1`) and
`mapVal = 0`, the code's masking multiplier is `1`, not the forced-to-zero
floor `0.2` the claim requires: with numerator and denominator both
negative the quotient exceeds `1` and the clamp saturates upward. -/
theorem mask_overrange_counterexample :
    maskMultiplier 2 0 = 1 ∧ maskMultiplier 2 0 ≠ 1 / 5 := by
  constructor
  · norm_num [maskMultiplier, maskClamp]
  · norm_num [maskMultiplier, maskClamp]

/-- C7 (amended): for out-of-range `randomness` with
`threshold = randomness * 0.8` strictly above 1, the masking computation
stays inside the clamp range and degrades to *no suppression*: for every
`mapVal ≤ 1` the clamped mask equals 1, so the multiplier equals 1 and
only in-range values reach the pixel data; the render does not crash. -/
theorem mask_overrange_degrades (randomness mapVal : ℚ)
    (ht : 1 < randomness * (4 / 5)) (hv : mapVal ≤ 1) :
    maskClamp ((mapVal - randomness * (4 / 5)) / (1 - randomness * (4 / 5))) = 1 ∧
    maskMultiplier randomness mapVal = 1 := by
  have hd : 1 - randomness * (4 / 5) < 0 := by linarith
  have hq : 1 ≤ (mapVal - randomness * (4 / 5)) / (1 - randomness * (4 / 5)) := by
    rw [le_div_iff_of_neg hd]
    linarith
  have hc : maskClamp ((mapVal - randomness * (4 / 5)) / (1 - randomness * (4 / 5))) = 1 := by
    unfold maskClamp
    split_ifs with h1 h2
    · linarith
    · rfl
    · linarith
  refine ⟨hc, ?_⟩
  unfold maskMultiplier
  simp only []
  rw [hc]
  norm_num

/-- Witness for the amended C7 at `randomness = 2`, `mapVal = 1/2`. -/
theorem mask_overrange_degrades_witness :
    maskClamp ((1 / 2 - 2 * (4 / 5)) / (1 - 2 * (4 / 5))) = 1 ∧
    maskMultiplier 2 (1 / 2) = 1 :=
  mask_overrange_degrades 2 (1 / 2) (by norm_num) (by norm_num)

/-- C1: the render pass is a pure function of the settings record: any two
settings records that agree on every field the render reads (all fields
except the display-only `ppi`) produce byte-identical output buffers under
the same deterministic platform primitives; in particular two executions on
the same record are byte-identical, with no hidden cross-render state. -/
theorem render_deterministic (M : JsMath) (smooth : SmoothFn)
    (compose : ComposeFn) (s1 s2 : GrainSettings)
    (hw : s1.width = s2.width) (hh : s1.height = s2.height)
    (hi : s1.intensity = s2.intensity) (hs : s1.scale = s2.scale)
    (hro : s1.roughness = s2.roughness) (hop : s1.opacity = s2.opacity)
    (hra : s1.randomness = s2.randomness) (hse : s1.seed = s2.seed)
    (hbg : s1.bgColor = s2.bgColor) (hgc : s1.grainColor = s2.grainColor)
    (ht : s1.texture = s2.texture) (hm : s1.monochrome = s2.monochrome) :
    renderOutput M smooth compose s1 = renderOutput M smooth compose s2 := by
  cases s1
  cases s2
  simp only [] at hw hh hi hs hro hop hra hse hbg hgc ht hm
  subst hw hh hi hs hro hop hra hse hbg hgc ht hm
  rfl

/-- Witness for C1: two renders of the same concrete record coincide. -/
theorem render_deterministic_witness :
    renderOutput trivialMath trivialSmooth trivialCompose (toggleSettings true) =
      renderOutput trivialMath trivialSmooth trivialCompose (toggleSettings true) :=
  render_deterministic trivialMath trivialSmooth trivialCompose
    (toggleSettings true) (toggleSettings true)
    rfl rfl rfl rfl rfl rfl rfl rfl rfl rfl rfl rfl

/-- C5: with `randomness ≤ 0.05` the clump-mask branch is skipped entirely
(no PRNG draws are consumed for a mask and the per-cell loop starts at draw
index 0), so the output buffer is identical to a render of the same record
with `randomness = 0`. -/
theorem below_threshold_noop (M : JsMath) (smooth : SmoothFn)
    (compose : ComposeFn) (s : GrainSettings) (h : s.randomness ≤ 1 / 20) :
    renderOutput M smooth compose s =
      renderOutput M smooth compose { s with randomness := 0 } := by
  cases s
  simp only [] at h
  unfold renderOutput renderNoise
  simp only []
  rw [if_neg (by simpa using not_lt.mpr h), if_neg (by norm_num)]

/-- Witness for C5 at `randomness = 1/25 ≤ 0.05`. -/
theorem below_threshold_noop_witness :
    renderOutput trivialMath trivialSmooth trivialCompose
        { toggleSettings true with randomness := 1 / 25 } =
      renderOutput trivialMath trivialSmooth trivialCompose
        { { toggleSettings true with randomness := 1 / 25 } with randomness := 0 } :=
  below_threshold_noop trivialMath trivialSmooth trivialCompose
    { toggleSettings true with randomness := 1 / 25 } (by norm_num)

/-- C6 counterexample: a requested width of 0 is not raised to 1: the code
clamps only from above (`Math.min(width, 5000)`), so the buffer dimension
is 0, below the claimed lower bound 1. -/
theorem dimension_clamp_counterexample :
    finalDim 0 = 0 ∧ ¬ (1 ≤ finalDim 0) := by
  norm_num [finalDim, MAX_DIMENSION]

/-- C6 (amended): each requested dimension is clamped from above to 5000,
so the buffer is never larger than 5000 in either axis; a dimension that is
at least 1 stays at least 1 (the lower bound is enforced only by the UI
layer, not by the render); and the noise resolution is
`ceil(clampedDimension / max(1, scale))`. -/
theorem dimension_clamp_amended (w h scale : ℚ) :
    finalDim w ≤ 5000 ∧ finalDim h ≤ 5000 ∧
    (1 ≤ w → 1 ≤ finalDim w) ∧ (1 ≤ h → 1 ≤ finalDim h) ∧
    noiseDim (finalDim w) scale = ⌈finalDim w / max 1 scale⌉ := by
  refine ⟨min_le_right _ _, min_le_right _ _, ?_, ?_, rfl⟩
  · intro hw
    exact le_min hw (by norm_num [MAX_DIMENSION])
  · intro hh
    exact le_min hh (by norm_num [MAX_DIMENSION])

/-- Witness for the amended C6 at `w = 3`, `h = 7`, `scale = 2`. -/
theorem dimension_clamp_amended_witness :
    finalDim 3 ≤ 5000 ∧ 1 ≤ finalDim 3 ∧
    noiseDim (finalDim 3) 2 = ⌈finalDim 3 / max 1 2⌉ :=
  ⟨(dimension_clamp_amended 3 7 2).1,
   (dimension_clamp_amended 3 7 2).2.2.1 (by norm_num),
   (dimension_clamp_amended 3 7 2).2.2.2.2⟩

/-- C8: a grain-color channel whose hex parse fails (`parseInt` yields
`NaN`) defaults to 0 via `|| 0`, and the render still completes: the output
buffer always has its full 4-bytes-per-cell length, for any color string.  -/
theorem hex_parse_failure_defaults (gc : String)
    (h1 : parseIntHex (jsSlice gc 1 3) = none)
    (h2 : parseIntHex (jsSlice gc 3 5) = none)
    (h3 : parseIntHex (jsSlice gc 5 7) = none) :
    channelOf gc 1 3 = 0 ∧ channelOf gc 3 5 = 0 ∧ channelOf gc 5 7 = 0 ∧
    ∀ (M : JsMath) (smooth : SmoothFn) (s : GrainSettings),
      (renderNoise M smooth s).length = 4 * cellCount s := by
  refine ⟨?_, ?_, ?_, fun M smooth s => renderNoise_length M smooth s⟩ <;>
    simp [channelOf, h1, h2, h3]

/-- Witness for C8 at the malformed color `"#zzzzzz"` and a concrete
settings record. -/
theorem hex_parse_failure_defaults_witness :
    channelOf "#zzzzzz" 1 3 = 0 ∧
    (renderNoise trivialMath trivialSmooth
        { toggleSettings true with grainColor := "#zzzzzz" }).length =
      4 * cellCount { toggleSettings true with grainColor := "#zzzzzz" } :=
  ⟨(hex_parse_failure_defaults "#zzzzzz" rfl rfl rfl).1,
   (hex_parse_failure_defaults "#zzzzzz" rfl rfl rfl).2.2.2 trivialMath
     trivialSmooth { toggleSettings true with grainColor := "#zzzzzz" }⟩

/-- C9 counterexample: a failure of the `generateContent` call itself (the
network error case) is raised outside the `try` block and therefore
propagates out of `fetchGrainRecipes` instead of yielding the empty recipe
list the claim requires. -/
theorem fetch_network_error_counterexample :
    fetchGrainRecipes (Except.error "network failure") (fun _ => none) =
      Except.error "network failure" ∧
    fetchGrainRecipes (Except.error "network failure") (fun _ => none) ≠
      Except.ok ([] : List AIRecipe) :=
  ⟨rfl, fun h => Except.noConfusion h⟩

/-- C9 (amended): a JSON parse failure is caught and yields the empty
recipe list without throwing, and a successful parse yields the parsed
list; but a failure of the `generateContent` call itself propagates out of
`fetchGrainRecipes` as an error (its caller catches and logs it, so it is
non-fatal to the app and the render pipeline is unaffected). -/
theorem fetch_failure_behaviour (generate : Except String String)
    (parseJson : String → Option (List AIRecipe)) :
    (∀ e, generate = .error e → fetchGrainRecipes generate parseJson = .error e) ∧
    (∀ text, generate = .ok text → parseJson text = none →
      fetchGrainRecipes generate parseJson = .ok []) ∧
    (∀ text recipes, generate = .ok text → parseJson text = some recipes →
      fetchGrainRecipes generate parseJson = .ok recipes) := by
  refine ⟨?_, ?_, ?_⟩
  · intro e he
    subst he
    rfl
  · intro text hg hp
    subst hg
    simp [fetchGrainRecipes, hp]
  · intro text recipes hg hp
    subst hg
    simp [fetchGrainRecipes, hp]

/-- Witness for the amended C9: a network error propagates; a parse
failure yields the empty list. -/
theorem fetch_failure_behaviour_witness :
    fetchGrainRecipes (Except.error "network failure") (fun _ => none) =
      Except.error "network failure" ∧
    fetchGrainRecipes (Except.ok "not json") (fun _ => none) =
      Except.ok ([] : List AIRecipe) :=
  ⟨(fetch_failure_behaviour (Except.error "network failure") (fun _ => none)).1
      "network failure" rfl,
   (fetch_failure_behaviour (Except.ok "not json") (fun _ => none)).2.1
      "not json" rfl rfl⟩

/-- C10: toggling only the monochrome flag shifts the PRNG stream seen by
later cells: on a concrete 2-cell UNIFORM render with seed 1, the two modes
agree on the first cell's alpha byte but differ on the second cell's alpha
byte, because the color mode consumes three extra draws per cell for RGB. -/
theorem monochrome_toggle_shifts_stream :
    (renderNoise trivialMath trivialSmooth (toggleSettings true)).getD 3 0 =
      (renderNoise trivialMath trivialSmooth (toggleSettings false)).getD 3 0 ∧
    (renderNoise trivialMath trivialSmooth (toggleSettings true)).getD 7 0 ≠
      (renderNoise trivialMath trivialSmooth (toggleSettings false)).getD 7 0 := by
  have hg1 : seedStream 1 1 = (11749833 : ℚ) / 4294967296 :=
    seedStream_one_val 1 11749833 (by decide)
  have hg4 : seedStream 1 4 = (4159151403 : ℚ) / 4294967296 :=
    seedStream_one_val 4 4159151403 (by decide)
  have b1 : toByte ((11749833 : ℚ) / 4294967296 * 1 * 255) = 1 := by
    have := toByte_up ((11749833 : ℚ) / 4294967296 * 1 * 255) 0
      (by norm_num) (by norm_num) (by norm_num)
    simpa using this
  have b4 : toByte ((4159151403 : ℚ) / 4294967296 * 1 * 255) = 247 := by
    have := toByte_up ((4159151403 : ℚ) / 4294967296 * 1 * 255) 246
      (by norm_num) (by norm_num) (by norm_num)
    simpa using this
  constructor
  · rw [renderNoise_toggle true, renderNoise_toggle false]
    rfl
  · rw [renderNoise_toggle true, renderNoise_toggle false]
    have et : (cellBytes trivialMath GrainTexture.UNIFORM 1 true 0 0 0 none
        (seedStream 1) 0 0 2).getD 7 0 = toByte (seedStream 1 1 * 1 * 255) := rfl
    have ef : (cellBytes trivialMath GrainTexture.UNIFORM 1 false 0 0 0 none
        (seedStream 1) 0 0 2).getD 7 0 = toByte (seedStream 1 4 * 1 * 255) := rfl
    rw [et, ef, hg1, hg4, b1, b4]
    decide

end Grainy
